import Mathlib

/-!
Verification of the core logic of `src/app.py` ("FishyNW" fishing-tools
dashboard, version 1.7.8).

The embedding conventions:

* Python floats are modelled by real numbers (`ℝ`).  The exponents `1.35`
  and `0.35` in the trolling-depth formula are irrational powers, so the
  depth definitions use `Real.rpow` and are `noncomputable`; all concrete
  evaluations are done by `norm_num` together with explicit `rpow` bounds.
* `round(x, 1)` (round to one decimal place) is modelled by
  `round1 x = round (10 * x) / 10` using Mathlib's `round` (round half up).
  Python rounds ties to even, but no input verified here lands on a tie,
  so the two conventions agree on everything stated below.
* Naive `datetime` values are modelled by the structure `DT`
  (year/month/day/hour/minute); `datetime` comparison and
  `timedelta`-arithmetic are modelled on the absolute-minute timeline
  (`toAbsMin`, a civil-calendar day count times 1440 plus minutes of day).
  `timedelta(hours=1)` is `60` minutes.
* JSON values decoded by `requests.Response.json()` are modelled by the
  inductive `Json`; every external HTTP call is modelled by an
  `Except Unit Json` parameter: `Except.error ()` stands for any raised
  `requests` exception (timeout, non-2xx, JSON decode failure).  Python
  subscripting/attribute failures (`KeyError`, `IndexError`, `TypeError`,
  `AttributeError`, `ValueError`) are modelled by `Except.error ()` from
  the corresponding access functions, mirroring that the source wraps each
  fetch-and-extract block in `try: ... except Exception`.
* `datetime.fromisoformat` is modelled by `parseIso`, covering the
  fixed-width subset `YYYY-MM-DD{T or space}HH:MM` (both separators are
  accepted by CPython) with full calendar validation; strings outside the
  subset are parse failures, mirroring the `except`-and-skip behaviour.
-/

/-! ## Trolling depth estimator (`trolling_depth`, src/app.py lines 342-352) -/

inductive LineType where
  | Braid
  | Fluorocarbon
  | Monofilament
deriving DecidableEq

/-- Per-material drag constant, from the dict literal
`{"Braid": 1.0, "Fluorocarbon": 1.12, "Monofilament": 1.2}`. -/
def type_drag : LineType → ℝ
  | .Braid => 1.0
  | .Fluorocarbon => 1.12
  | .Monofilament => 1.2

/-- Python `round(x, 1)`: round to the nearest multiple of one tenth. -/
noncomputable def round1 (x : ℝ) : ℝ := (round (10 * x) : ℤ) / 10

/-- The depth value computed by `trolling_depth` before rounding:
`0.135 * (weight_oz / (total_drag * speed_mph ** 1.35)) * line_out_ft`
with `total_drag = type_drag * (line_test_lb / 20.0) ** 0.35`. -/
noncomputable def depth_formula (speed_mph weight_oz line_out_ft : ℝ)
    (line_type : LineType) (line_test_lb : ℝ) : ℝ :=
  let test_ratio := line_test_lb / 20.0
  let test_drag := test_ratio ^ (0.35 : ℝ)
  let total_drag := type_drag line_type * test_drag
  0.135 * (weight_oz / (total_drag * speed_mph ^ (1.35 : ℝ))) * line_out_ft

/-- `trolling_depth` from src/app.py: `None` (modelled `none`) when any
numeric input is non-positive, otherwise the rounded formula value. -/
noncomputable def trolling_depth (speed_mph weight_oz line_out_ft : ℝ)
    (line_type : LineType) (line_test_lb : ℝ) : Option ℝ :=
  if speed_mph ≤ 0 ∨ weight_oz ≤ 0 ∨ line_out_ft ≤ 0 ∨ line_test_lb ≤ 0 then
    none
  else
    some (round1 (depth_formula speed_mph weight_oz line_out_ft line_type line_test_lb))

lemma type_drag_pos (lt : LineType) : 0 < type_drag lt := by
  cases lt <;> norm_num [type_drag]

lemma test_drag_pos {t : ℝ} (ht : 0 < t) : 0 < (t / 20.0) ^ (0.35 : ℝ) :=
  Real.rpow_pos_of_pos (by positivity) _

lemma speed_pow_pos {s : ℝ} (hs : 0 < s) : 0 < s ^ (1.35 : ℝ) :=
  Real.rpow_pos_of_pos hs _

lemma trolling_depth_pos_eq {s w L t : ℝ} (lt : LineType)
    (hs : 0 < s) (hw : 0 < w) (hL : 0 < L) (ht : 0 < t) :
    trolling_depth s w L lt t = some (round1 (depth_formula s w L lt t)) := by
  have hcond : ¬ (s ≤ 0 ∨ w ≤ 0 ∨ L ≤ 0 ∨ t ≤ 0) := by
    push_neg
    exact ⟨hs, hw, hL, ht⟩
  simp [trolling_depth, hcond]

lemma round1_mono {a b : ℝ} (h : a ≤ b) : round1 a ≤ round1 b := by
  unfold round1
  have hr : round (10 * a) ≤ round (10 * b) := by
    rw [round_eq, round_eq]
    exact Int.floor_mono (by linarith)
  have : ((round (10 * a) : ℤ) : ℝ) ≤ ((round (10 * b) : ℤ) : ℝ) := by
    exact_mod_cast hr
  linarith

lemma round1_nonneg {a : ℝ} (h : 0 ≤ a) : 0 ≤ round1 a := by
  unfold round1
  have h0 : (0 : ℤ) ≤ round (10 * a) := by
    rw [round_eq]
    have : (0 : ℝ) ≤ 10 * a + 1 / 2 := by linarith
    exact_mod_cast Int.floor_nonneg.mpr this
  have : (0 : ℝ) ≤ ((round (10 * a) : ℤ) : ℝ) := by exact_mod_cast h0
  linarith

lemma depth_formula_pos {s w L t : ℝ} (lt : LineType)
    (hs : 0 < s) (hw : 0 < w) (hL : 0 < L) (ht : 0 < t) :
    0 < depth_formula s w L lt t := by
  simp only [depth_formula]
  have h1 : 0 < type_drag lt * (t / 20.0) ^ (0.35 : ℝ) * s ^ (1.35 : ℝ) :=
    mul_pos (mul_pos (type_drag_pos lt) (test_drag_pos ht)) (speed_pow_pos hs)
  have h2 : 0 < w / (type_drag lt * (t / 20.0) ^ (0.35 : ℝ) * s ^ (1.35 : ℝ)) :=
    div_pos hw h1
  nlinarith

/-! ### Bounds for `(1.5 : ℝ) ^ (1.35 : ℝ)`, used for the spec's concrete example -/

lemma pow15_135_pow20 : ((1.5 : ℝ) ^ (1.35 : ℝ)) ^ (20 : ℕ) = (1.5 : ℝ) ^ (27 : ℕ) := by
  rw [← Real.rpow_natCast ((1.5 : ℝ) ^ (1.35 : ℝ)) 20, ← Real.rpow_natCast (1.5 : ℝ) 27,
    ← Real.rpow_mul (by norm_num : (0 : ℝ) ≤ 1.5)]
  norm_num

lemma pow15_135_lb : (1.728 : ℝ) < (1.5 : ℝ) ^ (1.35 : ℝ) := by
  have hpos : 0 < (1.5 : ℝ) ^ (1.35 : ℝ) := Real.rpow_pos_of_pos (by norm_num) _
  have h : (1.728 : ℝ) ^ (20 : ℕ) < ((1.5 : ℝ) ^ (1.35 : ℝ)) ^ (20 : ℕ) := by
    rw [pow15_135_pow20]
    norm_num
  exact lt_of_pow_lt_pow_left₀ 20 hpos.le h

lemma pow15_135_ub : (1.5 : ℝ) ^ (1.35 : ℝ) < 1.7291 := by
  have h : ((1.5 : ℝ) ^ (1.35 : ℝ)) ^ (20 : ℕ) < (1.7291 : ℝ) ^ (20 : ℕ) := by
    rw [pow15_135_pow20]
    norm_num
  exact lt_of_pow_lt_pow_left₀ 20 (by norm_num) h

/-- Shared evaluation of the spec's concrete depth example: the code returns
`75.0` at speed 1.5 mph, weight 8 oz, line out 120 ft, Braid, 20 lb test. -/
lemma trolling_depth_spec_example_eval :
    trolling_depth 1.5 8 120 LineType.Braid 20 = some 75 := by
  rw [trolling_depth_pos_eq LineType.Braid (by norm_num) (by norm_num) (by norm_num)
    (by norm_num)]
  have hx : (0 : ℝ) < (1.5 : ℝ) ^ (1.35 : ℝ) := Real.rpow_pos_of_pos (by norm_num) _
  have hd : depth_formula 1.5 8 120 LineType.Braid 20 =
      0.135 * (8 / (1.5 : ℝ) ^ (1.35 : ℝ)) * 120 := by
    simp only [depth_formula, type_drag]
    norm_num [Real.one_rpow]
  rw [hd]
  unfold round1
  have h10 : (10 : ℝ) * (0.135 * (8 / (1.5 : ℝ) ^ (1.35 : ℝ)) * 120) =
      1296 / (1.5 : ℝ) ^ (1.35 : ℝ) := by
    field_simp
    ring
  rw [h10]
  have hround : round ((1296 : ℝ) / (1.5 : ℝ) ^ (1.35 : ℝ)) = 750 := by
    rw [round_eq]
    have hlb := pow15_135_lb
    have hub := pow15_135_ub
    have h1 : (1296 : ℝ) / (1.5 : ℝ) ^ (1.35 : ℝ) < 750 := by
      rw [div_lt_iff₀ hx]
      nlinarith
    have h2 : (749.5 : ℝ) < (1296 : ℝ) / (1.5 : ℝ) ^ (1.35 : ℝ) := by
      rw [lt_div_iff₀ hx]
      nlinarith
    have : ⌊(1296 : ℝ) / (1.5 : ℝ) ^ (1.35 : ℝ) + 1 / 2⌋ = (750 : ℤ) := by
      apply Int.floor_eq_iff.mpr
      constructor
      · push_cast
        linarith
      · push_cast
        linarith
    exact this
  rw [hround]
  norm_num

/-! ### Claim C1 -/

/-- C1 counterexample: the code has no 250 ft clamp.  At speed 1 mph,
weight 1000 oz, line out 1000 ft, Braid, 20 lb test, the estimator
returns `135000.0`, far above 250. -/
theorem trolling_depth_not_clamped_at_250 :
    trolling_depth 1 1000 1000 LineType.Braid 20 = some 135000 ∧
      ¬ ((135000 : ℝ) ≤ 250) := by
  constructor
  · rw [trolling_depth_pos_eq LineType.Braid (by norm_num) (by norm_num) (by norm_num)
      (by norm_num)]
    have hd : depth_formula 1 1000 1000 LineType.Braid 20 = 135000 := by
      simp only [depth_formula, type_drag]
      norm_num [Real.one_rpow]
    rw [hd]
    unfold round1
    norm_num
  · norm_num

/-- C1 (amended): for all positive inputs the estimator returns a defined
value, which is the one-decimal rounding of the depth formula, is
non-negative, and is an integer multiple of one tenth; there is no upper
clamp at 250. -/
theorem trolling_depth_nonneg_one_decimal (s w L : ℝ) (lt : LineType) (t : ℝ)
    (hs : 0 < s) (hw : 0 < w) (hL : 0 < L) (ht : 0 < t) :
    trolling_depth s w L lt t = some (round1 (depth_formula s w L lt t)) ∧
      0 ≤ round1 (depth_formula s w L lt t) ∧
      ∃ n : ℤ, round1 (depth_formula s w L lt t) = (n : ℝ) / 10 := by
  refine ⟨trolling_depth_pos_eq lt hs hw hL ht, ?_, ?_⟩
  · exact round1_nonneg (depth_formula_pos lt hs hw hL ht).le
  · exact ⟨round (10 * depth_formula s w L lt t), rfl⟩

theorem trolling_depth_nonneg_one_decimal_witness :
    trolling_depth 1.3 2 100 LineType.Braid 12 =
        some (round1 (depth_formula 1.3 2 100 LineType.Braid 12)) ∧
      0 ≤ round1 (depth_formula 1.3 2 100 LineType.Braid 12) ∧
      ∃ n : ℤ, round1 (depth_formula 1.3 2 100 LineType.Braid 12) = (n : ℝ) / 10 :=
  trolling_depth_nonneg_one_decimal 1.3 2 100 LineType.Braid 12 (by norm_num)
    (by norm_num) (by norm_num) (by norm_num)

/-! ### Claim C2 -/

/-- C2 counterexample: the spec's worked example is wrong.  At speed 1.5,
weight 8, line out 120, Braid, 20 lb test the code returns `75.0`, not
`76.9` (the spec miscomputes `1.5 ** 1.35` as 1.6854; it is about 1.7287). -/
theorem trolling_depth_example_not_76_9 :
    trolling_depth 1.5 8 120 LineType.Braid 20 = some 75 ∧ (75 : ℝ) ≠ 76.9 := by
  exact ⟨trolling_depth_spec_example_eval, by norm_num⟩

/-- C2 (amended): the concrete example returns exactly `75.0` ft:
`round(0.135 * (8 / (1.0 * 1.5 ** 1.35)) * 120, 1) = 75.0`. -/
theorem trolling_depth_example_75 :
    trolling_depth 1.5 8 120 LineType.Braid 20 = some 75 :=
  trolling_depth_spec_example_eval

/-! ### Claim C3 -/

/-- C3: whenever `speed ≤ 0` or `weight ≤ 0` or `line_out ≤ 0` or
`line_test ≤ 0`, the estimator returns `None` (modelled `none`), for every
combination of the remaining parameters. -/
theorem trolling_depth_nonpos_input_none (s w L : ℝ) (lt : LineType) (t : ℝ)
    (h : s ≤ 0 ∨ w ≤ 0 ∨ L ≤ 0 ∨ t ≤ 0) :
    trolling_depth s w L lt t = none := by
  simp [trolling_depth, h]

theorem trolling_depth_nonpos_input_none_witness :
    trolling_depth 0 8 120 LineType.Braid 20 = none :=
  trolling_depth_nonpos_input_none 0 8 120 LineType.Braid 20 (Or.inl le_rfl)

/-! ### Claim C5 -/

/-- C5: the pre-rounding depth formula is strictly decreasing in speed and
strictly increasing in weight and line out, for all positive inputs. -/
theorem depth_formula_monotonicity (lt : LineType) :
    (∀ s1 s2 w L t : ℝ, 0 < w → 0 < L → 0 < t → 0 < s1 → s1 < s2 →
      depth_formula s2 w L lt t < depth_formula s1 w L lt t) ∧
    (∀ s w1 w2 L t : ℝ, 0 < s → 0 < L → 0 < t → 0 < w1 → w1 < w2 →
      depth_formula s w1 L lt t < depth_formula s w2 L lt t) ∧
    (∀ s w L1 L2 t : ℝ, 0 < s → 0 < w → 0 < t → 0 < L1 → L1 < L2 →
      depth_formula s w L1 lt t < depth_formula s w L2 lt t) := by
  refine ⟨?_, ?_, ?_⟩
  · intro s1 s2 w L t hw hL ht hs1 h12
    have hD : 0 < type_drag lt * (t / 20.0) ^ (0.35 : ℝ) :=
      mul_pos (type_drag_pos lt) (test_drag_pos ht)
    have hx : s1 ^ (1.35 : ℝ) < s2 ^ (1.35 : ℝ) :=
      Real.rpow_lt_rpow hs1.le h12 (by norm_num)
    simp only [depth_formula]
    have hden1 : 0 < type_drag lt * (t / 20.0) ^ (0.35 : ℝ) * s1 ^ (1.35 : ℝ) :=
      mul_pos hD (speed_pow_pos hs1)
    have key : w / (type_drag lt * (t / 20.0) ^ (0.35 : ℝ) * s2 ^ (1.35 : ℝ)) <
        w / (type_drag lt * (t / 20.0) ^ (0.35 : ℝ) * s1 ^ (1.35 : ℝ)) :=
      div_lt_div_of_pos_left hw hden1 (mul_lt_mul_of_pos_left hx hD)
    have := mul_lt_mul_of_pos_right
      (mul_lt_mul_of_pos_left key (by norm_num : (0 : ℝ) < 0.135)) hL
    exact this
  · intro s w1 w2 L t hs hL ht hw1 h12
    have hden : 0 < type_drag lt * (t / 20.0) ^ (0.35 : ℝ) * s ^ (1.35 : ℝ) :=
      mul_pos (mul_pos (type_drag_pos lt) (test_drag_pos ht)) (speed_pow_pos hs)
    simp only [depth_formula]
    have key : w1 / (type_drag lt * (t / 20.0) ^ (0.35 : ℝ) * s ^ (1.35 : ℝ)) <
        w2 / (type_drag lt * (t / 20.0) ^ (0.35 : ℝ) * s ^ (1.35 : ℝ)) :=
      div_lt_div_of_pos_right h12 hden
    have := mul_lt_mul_of_pos_right
      (mul_lt_mul_of_pos_left key (by norm_num : (0 : ℝ) < 0.135)) hL
    exact this
  · intro s w L1 L2 t hs hw ht hL1 h12
    have hden : 0 < type_drag lt * (t / 20.0) ^ (0.35 : ℝ) * s ^ (1.35 : ℝ) :=
      mul_pos (mul_pos (type_drag_pos lt) (test_drag_pos ht)) (speed_pow_pos hs)
    simp only [depth_formula]
    have hA : 0 < 0.135 * (w / (type_drag lt * (t / 20.0) ^ (0.35 : ℝ) * s ^ (1.35 : ℝ))) :=
      mul_pos (by norm_num) (div_pos hw hden)
    exact mul_lt_mul_of_pos_left h12 hA

theorem depth_formula_monotonicity_witness :
    depth_formula 2 8 120 LineType.Braid 20 < depth_formula 1.5 8 120 LineType.Braid 20 ∧
      depth_formula 1.5 8 120 LineType.Braid 20 < depth_formula 1.5 9 120 LineType.Braid 20 ∧
      depth_formula 1.5 8 120 LineType.Braid 20 < depth_formula 1.5 8 130 LineType.Braid 20 :=
  ⟨(depth_formula_monotonicity LineType.Braid).1 1.5 2 8 120 20 (by norm_num)
      (by norm_num) (by norm_num) (by norm_num) (by norm_num),
    (depth_formula_monotonicity LineType.Braid).2.1 1.5 8 9 120 20 (by norm_num)
      (by norm_num) (by norm_num) (by norm_num) (by norm_num),
    (depth_formula_monotonicity LineType.Braid).2.2 1.5 8 120 130 20 (by norm_num)
      (by norm_num) (by norm_num) (by norm_num) (by norm_num)⟩

/-! ### Claim C6 -/

lemma depth_formula_drag_anti {s w L t : ℝ} (lt1 lt2 : LineType)
    (hs : 0 < s) (hw : 0 < w) (hL : 0 < L) (ht : 0 < t)
    (h : type_drag lt1 ≤ type_drag lt2) :
    depth_formula s w L lt2 t ≤ depth_formula s w L lt1 t := by
  simp only [depth_formula]
  have hT := test_drag_pos ht
  have hS := speed_pow_pos hs
  have hden1 : 0 < type_drag lt1 * (t / 20.0) ^ (0.35 : ℝ) * s ^ (1.35 : ℝ) :=
    mul_pos (mul_pos (type_drag_pos lt1) hT) hS
  have hd : type_drag lt1 * (t / 20.0) ^ (0.35 : ℝ) * s ^ (1.35 : ℝ) ≤
      type_drag lt2 * (t / 20.0) ^ (0.35 : ℝ) * s ^ (1.35 : ℝ) := by
    have h1 := mul_le_mul_of_nonneg_right h hT.le
    exact mul_le_mul_of_nonneg_right h1 hS.le
  have key : w / (type_drag lt2 * (t / 20.0) ^ (0.35 : ℝ) * s ^ (1.35 : ℝ)) ≤
      w / (type_drag lt1 * (t / 20.0) ^ (0.35 : ℝ) * s ^ (1.35 : ℝ)) :=
    div_le_div_of_nonneg_left hw.le hden1 hd
  have h135 := mul_le_mul_of_nonneg_left key (by norm_num : (0 : ℝ) ≤ 0.135)
  exact mul_le_mul_of_nonneg_right h135 hL.le

/-- C6: at identical positive inputs, the rounded estimated depths for the
three line materials satisfy `depth(Mono) ≤ depth(Fluoro) ≤ depth(Braid)`,
because the drag constants are `1.00 ≤ 1.12 ≤ 1.20`. -/
theorem trolling_depth_material_ordering (s w L t : ℝ)
    (hs : 0 < s) (hw : 0 < w) (hL : 0 < L) (ht : 0 < t) :
    ∃ dB dF dM : ℝ,
      trolling_depth s w L LineType.Braid t = some dB ∧
      trolling_depth s w L LineType.Fluorocarbon t = some dF ∧
      trolling_depth s w L LineType.Monofilament t = some dM ∧
      dM ≤ dF ∧ dF ≤ dB := by
  refine ⟨round1 (depth_formula s w L LineType.Braid t),
    round1 (depth_formula s w L LineType.Fluorocarbon t),
    round1 (depth_formula s w L LineType.Monofilament t),
    trolling_depth_pos_eq _ hs hw hL ht,
    trolling_depth_pos_eq _ hs hw hL ht,
    trolling_depth_pos_eq _ hs hw hL ht, ?_, ?_⟩
  · exact round1_mono (depth_formula_drag_anti LineType.Fluorocarbon
      LineType.Monofilament hs hw hL ht (by norm_num [type_drag]))
  · exact round1_mono (depth_formula_drag_anti LineType.Braid
      LineType.Fluorocarbon hs hw hL ht (by norm_num [type_drag]))

theorem trolling_depth_material_ordering_witness :
    ∃ dB dF dM : ℝ,
      trolling_depth 1.5 8 120 LineType.Braid 12 = some dB ∧
      trolling_depth 1.5 8 120 LineType.Fluorocarbon 12 = some dF ∧
      trolling_depth 1.5 8 120 LineType.Monofilament 12 = some dM ∧
      dM ≤ dF ∧ dF ≤ dB :=
  trolling_depth_material_ordering 1.5 8 120 12 (by norm_num) (by norm_num)
    (by norm_num) (by norm_num)

/-! ## Naive datetimes (`datetime` values used by src/app.py) -/

/-- A naive Python `datetime` truncated to minute precision (the only
precision produced by the ISO strings the app consumes). -/
structure DT where
  year : ℕ
  month : ℕ
  day : ℕ
  hour : ℕ
  minute : ℕ
deriving DecidableEq, Repr

def isLeap (y : ℕ) : Bool :=
  y % 4 == 0 && (y % 100 != 0 || y % 400 == 0)

def daysInMonth (y m : ℕ) : ℕ :=
  if m == 2 then (if isLeap y then 29 else 28)
  else if m == 4 || m == 6 || m == 9 || m == 11 then 30
  else 31

/-- The ranges `datetime` itself enforces (CPython raises `ValueError`
outside them); `parseIso` only produces valid `DT` values. -/
def validDT (d : DT) : Prop :=
  1 ≤ d.year ∧ d.year ≤ 9999 ∧ 1 ≤ d.month ∧ d.month ≤ 12 ∧
    1 ≤ d.day ∧ d.day ≤ daysInMonth d.year d.month ∧ d.hour ≤ 23 ∧ d.minute ≤ 59

instance : DecidablePred validDT := fun d => by
  unfold validDT
  infer_instance

/-- Civil-calendar day number (days since 0000-03-01), the standard
days-from-civil algorithm; used to put datetimes on one timeline. -/
def daysFromCivil (y m d : ℕ) : ℕ :=
  let y2 := if m ≤ 2 then y - 1 else y
  let era := y2 / 400
  let yoe := y2 % 400
  let mp := (m + 9) % 12
  let doy := (153 * mp + 2) / 5 + (d - 1)
  let doe := yoe * 365 + yoe / 4 - yoe / 100 + doy
  era * 146097 + doe

/-- Absolute minute of a `DT` on the civil timeline; naive `datetime`
comparison and `timedelta` arithmetic are modelled on this value. -/
def toAbsMin (d : DT) : ℤ :=
  (daysFromCivil d.year d.month d.day : ℤ) * 1440 + d.hour * 60 + d.minute

/-- Python `datetime` ordering (`dt <= now_local`). -/
def dtLe (a b : DT) : Prop := toAbsMin a ≤ toAbsMin b

instance : DecidableRel dtLe := fun a b =>
  inferInstanceAs (Decidable (toAbsMin a ≤ toAbsMin b))

def digitVal (c : Char) : Option ℕ :=
  if c.isDigit then some (c.toNat - 48) else none

def num2 (a b : Char) : Option ℕ := do
  let x ← digitVal a
  let y ← digitVal b
  pure (10 * x + y)

def num4 (a b c d : Char) : Option ℕ := do
  let x ← digitVal a
  let y ← digitVal b
  let z ← digitVal c
  let u ← digitVal d
  pure (1000 * x + 100 * y + 10 * z + u)

/-- Model of `datetime.fromisoformat` on the fixed-width subset
`YYYY-MM-DD{T or space}HH:MM` that the app's data sources produce
(CPython accepts both separators); returns `none` (the `except` path)
for anything else, including calendar-invalid dates. -/
def parseIso (s : String) : Option DT :=
  match s.toList with
  | [y1, y2, y3, y4, '-', m1, m2, '-', d1, d2, sep, h1, h2, ':', n1, n2] => do
    guard (sep = 'T' ∨ sep = ' ')
    let y ← num4 y1 y2 y3 y4
    let mo ← num2 m1 m2
    let dy ← num2 d1 d2
    let hh ← num2 h1 h2
    let mi ← num2 n1 n2
    let dt : DT := ⟨y, mo, dy, hh, mi⟩
    guard (validDT dt)
    pure dt
  | _ => none

/-- Minute-resolution variant used where the code goes on to do
`timedelta` arithmetic with the parsed value. -/
def parseIsoMin (s : String) : Option ℤ := (parseIso s).map toAbsMin

/-! ### Label formatting for the wind list
(`dt.strftime("%a %b %d, %I %p").replace(" 0", " ").replace(":00", "")`) -/

def weekdayName (d : DT) : String :=
  ["Sun", "Mon", "Tue", "Wed", "Thu", "Fri", "Sat"].getD
    ((daysFromCivil d.year d.month d.day + 3) % 7) ""

def monthName (m : ℕ) : String :=
  ["Jan", "Feb", "Mar", "Apr", "May", "Jun",
    "Jul", "Aug", "Sep", "Oct", "Nov", "Dec"].getD (m - 1) ""

def two (n : ℕ) : String :=
  if n < 10 then "0" ++ toString n else toString n

def hour12 (h : ℕ) : ℕ :=
  if h % 12 == 0 then 12 else h % 12

def ampm (h : ℕ) : String :=
  if h < 12 then "AM" else "PM"

/-- Python `str.replace(" 0", " ")`: drop every zero that follows a
space, scanning left to right over non-overlapping occurrences (the
general `replace` specialised to this literal pattern so that it stays
structurally recursive). -/
def repSpaceZero : List Char → List Char
  | [] => []
  | [c] => [c]
  | ' ' :: '0' :: rest => ' ' :: repSpaceZero rest
  | c :: rest => c :: repSpaceZero rest

/-- Python `str.replace(":00", "")`, specialised the same way (a no-op on
the `%a %b %d, %I %p` labels, which contain no colon). -/
def repColon00 : List Char → List Char
  | ':' :: '0' :: '0' :: rest => repColon00 rest
  | c :: rest => c :: repColon00 rest
  | [] => []

/-- The wind-list entry label built by `split_current_future_winds`:
`dt.strftime("%a %b %d, %I %p").replace(" 0", " ").replace(":00", "")`. -/
def fmtLabel (d : DT) : String :=
  ⟨repColon00 (repSpaceZero (weekdayName d ++ " " ++ monthName d.month ++ " " ++
    two d.day ++ ", " ++ two (hour12 d.hour) ++ " " ++ ampm d.hour).data)⟩

/-! ## JSON values and the HTTP collaborator boundary -/

/-- A decoded JSON document (`requests.Response.json()` result). -/
inductive Json where
  | null
  | bool (b : Bool)
  | num (q : ℚ)
  | str (s : String)
  | arr (xs : List Json)
  | obj (fields : List (String × Json))

/-- Python truthiness of a JSON-decoded value (`if not loc:`). -/
def truthy : Json → Bool
  | .null => false
  | .bool b => b
  | .num q => q != 0
  | .str s => s != ""
  | .arr xs => !xs.isEmpty
  | .obj fields => !fields.isEmpty

/-- `data[k]` subscripting: raises (`Except.error`) unless `data` is a dict
containing `k`. -/
def pyIndexStr (j : Json) (k : String) : Except Unit Json :=
  match j with
  | .obj fields =>
    match fields.lookup k with
    | some v => Except.ok v
    | none => Except.error ()
  | _ => Except.error ()

/-- `data[i]` subscripting on a list: raises unless the index is in range. -/
def pyIndexNat (j : Json) (i : ℕ) : Except Unit Json :=
  match j with
  | .arr xs =>
    match xs.get? i with
    | some v => Except.ok v
    | none => Except.error ()
  | _ => Except.error ()

/-- `dict.get(k)`: `None` (`Json.null`) when the key is missing; raises
(`AttributeError`) when the receiver is not a dict. -/
def pyDictGet (j : Json) (k : String) : Except Unit Json :=
  match j with
  | .obj fields =>
    match fields.lookup k with
    | some v => Except.ok v
    | none => Except.ok Json.null
  | _ => Except.error ()

/-- A value usable as a Python `str` (anything else makes `fromisoformat`
or `.split` raise a `TypeError`/`AttributeError`). -/
def asString (j : Json) : Except Unit String :=
  match j with
  | .str s => Except.ok s
  | _ => Except.error ()

def optToExcept {α : Type} (o : Option α) : Except Unit α :=
  match o with
  | some a => Except.ok a
  | none => Except.error ()

/-! ## `get_location` (src/app.py lines 269-278) -/

/-- `get_location`: IP geolocation.  `pyFloat` models Python `float(str)`
(`none` = `ValueError`); `resp` models the outcome of
`get_json("https://ipinfo.io/json", 6)`.  Every raise inside the `try`
block falls through to `return None, None`. -/
def get_location (pyFloat : String → Option ℚ) (resp : Except Unit Json) :
    Option ℚ × Option ℚ :=
  match resp with
  | .error _ => (none, none)
  | .ok data =>
    match pyDictGet data "loc" with
    | .error _ => (none, none)
    | .ok loc =>
      if truthy loc = false then (none, none)
      else
        match loc with
        | .str s =>
          match s.splitOn "," with
          | [latS, lonS] =>
            match pyFloat latS, pyFloat lonS with
            | some lat, some lon => (some lat, some lon)
            | _, _ => (none, none)
          | _ => (none, none)
        | _ => (none, none)

/-! ## `get_sun_times` and `best_times` (src/app.py lines 280-305) -/

/-- The body of `get_sun_times`'s `try` block: extract
`data["daily"]["sunrise"][0]` and `data["daily"]["sunset"][0]` and parse
both with `datetime.fromisoformat`; any failure raises. -/
def sunExtract (resp : Except Unit Json) : Except Unit (ℤ × ℤ) := do
  let data ← resp
  let daily1 ← pyIndexStr data "daily"
  let srArr ← pyIndexStr daily1 "sunrise"
  let srJ ← pyIndexNat srArr 0
  let daily2 ← pyIndexStr data "daily"
  let ssArr ← pyIndexStr daily2 "sunset"
  let ssJ ← pyIndexNat ssArr 0
  let srS ← asString srJ
  let ssS ← asString ssJ
  let sr ← optToExcept (parseIsoMin srS)
  let ss ← optToExcept (parseIsoMin ssS)
  pure (sr, ss)

/-- `get_sun_times` from src/app.py: the whole fetch-and-extract block is
wrapped in `try: ... except Exception: return None, None`, so the caller
receives plain optional values and never an exception.  (The `lat`, `lon`
and `day_iso` arguments only build the URL; the network outcome they lead
to is the `resp` parameter.) -/
def get_sun_times (resp : Except Unit Json) : Option ℤ × Option ℤ :=
  match sunExtract resp with
  | .ok (a, b) => (some a, some b)
  | .error _ => (none, none)

/-- `best_times` from src/app.py.  `if not sr or not ss: return None`:
a `datetime` is always truthy, so this fires exactly when a component is
`None`.  On success it returns the dict
`{"morning": (sr - 1h, sr + 1h), "evening": (ss - 1h, ss + 1h)}`,
modelled as an association list in insertion order, with times in
absolute minutes. -/
def best_times (resp : Except Unit Json) : Option (List (String × (ℤ × ℤ))) :=
  match get_sun_times resp with
  | (some sr, some ss) =>
    some [("morning", (sr - 60, sr + 60)), ("evening", (ss - 60, ss + 60))]
  | _ => none

/-! ### Concrete example data (spec's bite-window example) -/

/-- A successful open-meteo response for 2026-01-18: sunrise 07:30,
sunset 17:15. -/
def respEx : Except Unit Json :=
  Except.ok (Json.obj [("daily", Json.obj
    [("sunrise", Json.arr [Json.str "2026-01-18T07:30"]),
     ("sunset", Json.arr [Json.str "2026-01-18T17:15"])])])

/-- The bite-window result for `respEx` (used as a concrete instance):
morning 06:30-08:30 and evening 16:15-18:15 on 2026-01-18, in absolute
minutes (day number 739939 of the civil calendar). -/
def lEx : List (String × (ℤ × ℤ)) :=
  [("morning", (1065512550, 1065512670)), ("evening", (1065513135, 1065513255))]

/-! ### Claim C4 -/

/-- C4: whenever sunrise and sunset were successfully obtained, the
bite-window calculator returns exactly
`morning = (sunrise - 1h, sunrise + 1h)` and
`evening = (sunset - 1h, sunset + 1h)`. -/
theorem best_times_windows_plus_minus_hour (resp : Except Unit Json) (sr ss : ℤ)
    (h : get_sun_times resp = (some sr, some ss)) :
    best_times resp =
      some [("morning", (sr - 60, sr + 60)), ("evening", (ss - 60, ss + 60))] := by
  unfold best_times
  rw [h]

theorem best_times_windows_plus_minus_hour_witness :
    get_sun_times respEx = (some 1065512610, some 1065513195) ∧
      best_times respEx = some lEx := by
  have h : get_sun_times respEx = (some 1065512610, some 1065513195) := by decide
  refine ⟨h, ?_⟩
  rw [best_times_windows_plus_minus_hour respEx 1065512610 1065513195 h]
  norm_num [lEx]

/-! ### Claim C7 -/

/-- C7 counterexample: this revision's `best_times` result has no `note`
entry at all (and computes no lunar phase); on the spec's own example date
the successful result contains exactly the two windows. -/
theorem best_times_no_note_counterexample :
    best_times respEx ≠ none ∧
      "note" ∉ ((best_times respEx).getD []).map Prod.fst := by
  constructor
  · decide
  · decide

/-- C7 (amended): on success the bite-window result contains exactly the
`morning` and `evening` entries, in that order; no `note` string and no
lunar-phase computation exist in this revision. -/
theorem best_times_keys_morning_evening (resp : Except Unit Json)
    (l : List (String × (ℤ × ℤ))) (h : best_times resp = some l) :
    l.map Prod.fst = ["morning", "evening"] := by
  unfold best_times at h
  rcases hg : get_sun_times resp with ⟨o1, o2⟩
  rw [hg] at h
  cases o1 with
  | none => simp at h
  | some a =>
    cases o2 with
    | none => simp at h
    | some b =>
      simp only [Option.some.injEq] at h
      subst h
      rfl

theorem best_times_keys_morning_evening_witness :
    lEx.map Prod.fst = ["morning", "evening"] :=
  best_times_keys_morning_evening respEx lEx (by decide)

/-! ### Claim C8 -/

/-- C8: any failure inside `get_sun_times`'s `try` block — a raised
network exception (`resp = Except.error ()`) as well as a malformed or
field-missing payload — is caught at the collaborator boundary and turned
into the absent pair `(None, None)`, and `best_times` then returns `None`
instead of fabricated times.  `get_sun_times` returns plain optional
values, so no raw exception reaches `best_times`. -/
theorem best_times_absent_on_collaborator_failure (resp : Except Unit Json)
    (h : sunExtract resp = Except.error ()) :
    get_sun_times resp = (none, none) ∧ best_times resp = none := by
  have h1 : get_sun_times resp = (none, none) := by
    unfold get_sun_times
    rw [h]
  refine ⟨h1, ?_⟩
  unfold best_times
  rw [h1]

theorem best_times_absent_on_collaborator_failure_witness :
    get_sun_times (Except.error ()) = (none, none) ∧
      best_times (Except.error ()) = none :=
  best_times_absent_on_collaborator_failure (Except.error ()) rfl

/-! ### Claim C10 -/

/-- C10: `get_location` always returns either two defined coordinates or
the pair `(None, None)`; no path yields exactly one defined component. -/
theorem get_location_both_or_none (pyFloat : String → Option ℚ)
    (resp : Except Unit Json) :
    (∃ a b : ℚ, get_location pyFloat resp = (some a, some b)) ∨
      get_location pyFloat resp = (none, none) := by
  unfold get_location
  repeat' split
  all_goals first
    | (right; rfl)
    | (left; exact ⟨_, _, rfl⟩)

/-! ## `split_current_future_winds` (src/app.py lines 323-340) -/

/-- Python string `<=` (code-point lexicographic), via the underlying
character list; `sorted(...)` sorts by exactly this order. -/
def keyLe (a b : String) : Prop := a.data ≤ b.data

instance : DecidableRel keyLe := fun a b =>
  inferInstanceAs (Decidable (a.data ≤ b.data))

instance : IsTrans String keyLe := ⟨fun _ _ _ h h2 => le_trans h h2⟩

instance : IsTotal String keyLe := ⟨fun a b => le_total a.data b.data⟩

/-- `sorted(list(wind_by_time.keys()))`: the keys in ascending string
order.  (Python's sort is stable, but string order is antisymmetric, so
any sort produces this list.) -/
def windKeys (wind_by_time : List (String × ℚ)) : List String :=
  List.insertionSort keyLe (wind_by_time.map Prod.fst)

/-- One entry appended by the loop body.  `label` and `mph` are what the
source stores (`(label, mph)`); `key` and `dt` are carried alongside for
specification only. -/
structure WEntry where
  key : String
  dt : DT
  label : String
  mph : Option ℚ
deriving DecidableEq

/-- The loop of `split_current_future_winds`: walk the sorted keys,
skip keys `datetime.fromisoformat` rejects, and append each remaining
entry to `current` when `dt <= now_local` and to `future` otherwise. -/
def windLoopAux (now_local : DT) (wind_by_time : List (String × ℚ)) :
    List String → List WEntry × List WEntry
  | [] => ([], [])
  | k :: ks =>
    let rest := windLoopAux now_local wind_by_time ks
    match parseIso k with
    | none => rest
    | some dt =>
      let e : WEntry := ⟨k, dt, fmtLabel dt, wind_by_time.lookup k⟩
      if dtLe dt now_local then (e :: rest.1, rest.2) else (rest.1, e :: rest.2)

/-- The two entry lists before the final truncation. -/
def windEntries (wind_by_time : List (String × ℚ)) (now_local : DT) :
    List WEntry × List WEntry :=
  windLoopAux now_local wind_by_time (windKeys wind_by_time)

/-- `split_current_future_winds` from src/app.py: the loop's
`(label, mph)` pairs with `current = current[-6:]` and
`future = future[:12]`. -/
def split_current_future_winds (wind_by_time : List (String × ℚ))
    (now_local : DT) : List (String × Option ℚ) × List (String × Option ℚ) :=
  let cf := windEntries wind_by_time now_local
  let current := cf.1.map (fun e => (e.label, e.mph))
  let future := cf.2.map (fun e => (e.label, e.mph))
  (current.drop (current.length - 6), future.take 12)

/-- The entries behind the displayed `current` list (`current[-6:]`). -/
def currentShown (wind_by_time : List (String × ℚ)) (now_local : DT) :
    List WEntry :=
  (windEntries wind_by_time now_local).1.drop
    ((windEntries wind_by_time now_local).1.length - 6)

/-- The entries behind the displayed `future` list (`future[:12]`). -/
def futureShown (wind_by_time : List (String × ℚ)) (now_local : DT) :
    List WEntry :=
  (windEntries wind_by_time now_local).2.take 12

/-- A key selected into `current`: it parses and its time is `≤ now`. -/
def keepCurrent (now_local : DT) (k : String) : Bool :=
  match parseIso k with
  | some dt => decide (dtLe dt now_local)
  | none => false

/-- A key selected into `future`: it parses and its time is `> now`. -/
def keepFuture (now_local : DT) (k : String) : Bool :=
  match parseIso k with
  | some dt => !(decide (dtLe dt now_local))
  | none => false

/-! ### Claim C9 concrete data -/

/-- A wind mapping whose keys both parse with `datetime.fromisoformat`
but sort (as strings) against chronological order: CPython accepts a
space as well as `T` as the date-time separator, and `' ' < 'T'`. -/
def wEx : List (String × ℚ) := [("2026-01-18T07:00", 3), ("2026-01-18 08:00", 5)]

/-- Reference time 2026-01-18 12:00 (both entries are in the past). -/
def nowEx : DT := ⟨2026, 1, 18, 12, 0⟩

/-- C9 counterexample: on `wEx` both entries land in `current`, but in
descending time order (8 AM before 7 AM), because the loop walks keys in
string order and `"2026-01-18 08:00" < "2026-01-18T07:00"` as strings. -/
theorem split_winds_time_order_counterexample :
    (split_current_future_winds wEx nowEx).1 =
      [("Sun Jan 18, 8 AM", some 5), ("Sun Jan 18, 7 AM", some 3)] ∧
      ¬ List.Pairwise dtLe ((currentShown wEx nowEx).map WEntry.dt) := by
  constructor
  · decide
  · decide

/-! ### Claim C9 general properties -/

lemma windKeys_sorted (w : List (String × ℚ)) : List.Sorted keyLe (windKeys w) :=
  List.sorted_insertionSort keyLe _

lemma windLoopAux_fst_keys (now : DT) (w : List (String × ℚ)) (ks : List String) :
    (windLoopAux now w ks).1.map WEntry.key = ks.filter (keepCurrent now) := by
  induction ks with
  | nil => rfl
  | cons k ks ih =>
    simp only [windLoopAux]
    cases hp : parseIso k with
    | none => simp [List.filter_cons, keepCurrent, hp, ih]
    | some dt =>
      by_cases hd : dtLe dt now
      · simp [List.filter_cons, keepCurrent, hp, hd, ih]
      · simp [List.filter_cons, keepCurrent, hp, hd, ih]

lemma windLoopAux_snd_keys (now : DT) (w : List (String × ℚ)) (ks : List String) :
    (windLoopAux now w ks).2.map WEntry.key = ks.filter (keepFuture now) := by
  induction ks with
  | nil => rfl
  | cons k ks ih =>
    simp only [windLoopAux]
    cases hp : parseIso k with
    | none => simp [List.filter_cons, keepFuture, hp, ih]
    | some dt =>
      by_cases hd : dtLe dt now
      · simp [List.filter_cons, keepFuture, hp, hd, ih]
      · simp [List.filter_cons, keepFuture, hp, hd, ih]

lemma windLoopAux_mem_fst (now : DT) (w : List (String × ℚ)) (ks : List String) :
    ∀ e ∈ (windLoopAux now w ks).1,
      parseIso e.key = some e.dt ∧ dtLe e.dt now ∧ e.label = fmtLabel e.dt ∧
        e.mph = w.lookup e.key := by
  induction ks with
  | nil =>
    intro e he
    simp [windLoopAux] at he
  | cons k ks ih =>
    intro e he
    simp only [windLoopAux] at he
    split at he
    · exact ih e he
    · rename_i dt hp
      split at he
      · rename_i hd
        rcases List.mem_cons.mp he with h | h
        · subst h
          exact ⟨hp, hd, rfl, rfl⟩
        · exact ih e h
      · exact ih e he

lemma windLoopAux_mem_snd (now : DT) (w : List (String × ℚ)) (ks : List String) :
    ∀ e ∈ (windLoopAux now w ks).2,
      parseIso e.key = some e.dt ∧ ¬ dtLe e.dt now ∧ e.label = fmtLabel e.dt ∧
        e.mph = w.lookup e.key := by
  induction ks with
  | nil =>
    intro e he
    simp [windLoopAux] at he
  | cons k ks ih =>
    intro e he
    simp only [windLoopAux] at he
    split at he
    · exact ih e he
    · rename_i dt hp
      split at he
      · exact ih e he
      · rename_i hd
        rcases List.mem_cons.mp he with h | h
        · subst h
          exact ⟨hp, hd, rfl, rfl⟩
        · exact ih e h

/-- C9 (amended): the loop classifies exactly the parseable keys (with
time `≤ now` into `current`, later times into `future`); unparseable keys
are silently skipped; each entry carries the strftime label and the
looked-up speed; at most the last 6 current and the first 12 future
entries are shown; and both displayed lists are in ascending *string*
(lexicographic key) order — which is ascending time order only when all
parseable keys share one separator/format, not in general. -/
theorem split_winds_classification_and_key_order (w : List (String × ℚ))
    (now : DT) :
    (split_current_future_winds w now).1 =
        (currentShown w now).map (fun e => (e.label, e.mph)) ∧
      (split_current_future_winds w now).2 =
        (futureShown w now).map (fun e => (e.label, e.mph)) ∧
      (currentShown w now).length ≤ 6 ∧
      (futureShown w now).length ≤ 12 ∧
      (windEntries w now).1.map WEntry.key = (windKeys w).filter (keepCurrent now) ∧
      (windEntries w now).2.map WEntry.key = (windKeys w).filter (keepFuture now) ∧
      (∀ e ∈ (windEntries w now).1,
        parseIso e.key = some e.dt ∧ dtLe e.dt now ∧ e.label = fmtLabel e.dt ∧
          e.mph = w.lookup e.key) ∧
      (∀ e ∈ (windEntries w now).2,
        parseIso e.key = some e.dt ∧ ¬ dtLe e.dt now ∧ e.label = fmtLabel e.dt ∧
          e.mph = w.lookup e.key) ∧
      List.Sorted keyLe ((currentShown w now).map WEntry.key) ∧
      List.Sorted keyLe ((futureShown w now).map WEntry.key) := by
  have h5 : (windEntries w now).1.map WEntry.key =
      (windKeys w).filter (keepCurrent now) :=
    windLoopAux_fst_keys now w (windKeys w)
  have h6 : (windEntries w now).2.map WEntry.key =
      (windKeys w).filter (keepFuture now) :=
    windLoopAux_snd_keys now w (windKeys w)
  refine ⟨?_, ?_, ?_, ?_, h5, h6, windLoopAux_mem_fst now w (windKeys w),
    windLoopAux_mem_snd now w (windKeys w), ?_, ?_⟩
  · simp [split_current_future_winds, currentShown, List.map_drop, List.length_map]
  · simp [split_current_future_winds, futureShown, List.map_take]
  · simp only [currentShown, List.length_drop]
    omega
  · simp only [futureShown, List.length_take]
    omega
  · have hkeys : (currentShown w now).map WEntry.key =
        ((windKeys w).filter (keepCurrent now)).drop
          ((windEntries w now).1.length - 6) := by
      rw [currentShown, List.map_drop, h5]
    rw [hkeys]
    exact ((windKeys_sorted w).filter _).sublist (List.drop_sublist _ _)
  · have hkeys : (futureShown w now).map WEntry.key =
        ((windKeys w).filter (keepFuture now)).take 12 := by
      rw [futureShown, List.map_take, h6]
    rw [hkeys]
    exact ((windKeys_sorted w).filter _).sublist (List.take_sublist _ _)

theorem split_winds_classification_and_key_order_witness :
    parseIso "2026-01-18 08:00" = some ⟨2026, 1, 18, 8, 0⟩ ∧
      dtLe ⟨2026, 1, 18, 8, 0⟩ nowEx ∧
      "Sun Jan 18, 8 AM" = fmtLabel ⟨2026, 1, 18, 8, 0⟩ ∧
      some (5 : ℚ) = wEx.lookup "2026-01-18 08:00" :=
  (split_winds_classification_and_key_order wEx nowEx).2.2.2.2.2.2.1
    ⟨"2026-01-18 08:00", ⟨2026, 1, 18, 8, 0⟩, "Sun Jan 18, 8 AM", some 5⟩ (by decide)
